import Mathlib

/-!
Shallow embedding of `src/TextMetricsHelper.js` (text-metrics-helper).

JS numbers are modelled as rationals (`ℚ`); a value that is JS `undefined`
or a non-finite arithmetic result (`NaN`) is modelled as `none : Option ℚ`,
and the helper operations `jadd`, `jmul`, `jdiv` propagate `none` the way
JS arithmetic propagates `NaN` (any operation on `undefined`/`NaN` yields
`NaN`; division by zero is likewise mapped to `none`, standing for a
non-finite result).

The class instance state captured by the constructor (fontSize, fontFamily,
fontWeight, fontStyle, the measured `TextMetrics`) becomes the `Engine`
structure.  `window.getComputedStyle(this.element)` is re-invoked by
`getElementLineHeight` at call time, so the computed style current at a
call is passed to the embedded functions as an explicit `StyleSnapshot`
argument; the snapshot taken at construction is a separate value given to
`construct`.
-/

namespace TextMetricsHelper

/-- Propagating addition on JS numbers: `undefined`/`NaN` absorbs. -/
def jadd : Option ℚ → Option ℚ → Option ℚ
  | some a, some b => some (a + b)
  | _, _ => none

/-- Propagating multiplication on JS numbers: `undefined`/`NaN` absorbs. -/
def jmul : Option ℚ → Option ℚ → Option ℚ
  | some a, some b => some (a * b)
  | _, _ => none

/-- Propagating division on JS numbers; a zero divisor gives a non-finite
result, modelled as `none` like `NaN`. -/
def jdiv : Option ℚ → Option ℚ → Option ℚ
  | some a, some b => if b = 0 then none else some (a / b)
  | _, _ => none

/-- The result of `window.getComputedStyle(element)`, restricted to the
fields the class reads.  `lineHeight = none` models the computed value
`"normal"`; `some px` models a concrete pixel value (the result of
`parseFloat` on it). -/
structure StyleSnapshot where
  fontSize : ℚ
  fontFamily : String
  fontWeight : String
  fontStyle : String
  lineHeight : Option ℚ
deriving DecidableEq

/-- The `TextMetrics` object returned by `ctx.measureText`: the two fields
the class reads, each possibly `undefined` (the capability gap). -/
structure GlyphExtent where
  actualBoundingBoxAscent : Option ℚ
  actualBoundingBoxDescent : Option ℚ
deriving DecidableEq

/-- The instance state retained by a successful constructor run. -/
structure Engine where
  referenceText : String
  fontSize : ℚ
  fontFamily : String
  fontWeight : String
  fontStyle : String
  metrics : GlyphExtent
deriving DecidableEq

/-- The `ctx.font` string assembled by the constructor. -/
def fontString (st : StyleSnapshot) : String :=
  st.fontStyle ++ " " ++ st.fontWeight ++ " " ++ toString st.fontSize
    ++ "px " ++ st.fontFamily

/-- The constructor.  `element = none` models a null/absent target and hits
the `throw` on line 20, modelled as `Except.error` with the thrown message.
`measureText` stands for the measurement primitive
`ctx.measureText` (after `ctx.font` has been set from the computed style);
it is applied exactly once, on success, to measure the reference text. -/
def construct (element : Option StyleSnapshot) (referenceText : String)
    (measureText : String → String → GlyphExtent) : Except String Engine :=
  match element with
  | none => Except.error "TextMetricsHelper: no element provided."
  | some st =>
      Except.ok
        { referenceText := referenceText
          fontSize := st.fontSize
          fontFamily := st.fontFamily
          fontWeight := st.fontWeight
          fontStyle := st.fontStyle
          metrics := measureText (fontString st) referenceText }

/-- `getMinLineHeight`, with the `console.warn` side channel made explicit:
the second component is the list of warnings emitted by the call. -/
def getMinLineHeightW (e : Engine) : ℚ × List String :=
  match e.metrics.actualBoundingBoxAscent, e.metrics.actualBoundingBoxDescent with
  | some a, some d => ((a + d) / e.fontSize, [])
  | _, _ => (1, ["actualBoundingBoxAscent/Descent not supported. Fallback = 1.0"])

/-- The numeric return value of `getMinLineHeight`. -/
def getMinLineHeight (e : Engine) : ℚ :=
  (getMinLineHeightW e).1

/-- `estimateNormalLineHeight`: `(ascent + descent) / fontSize * 1.1` with
JS `undefined`/`NaN` propagation. -/
def estimateNormalLineHeight (e : Engine) : Option ℚ :=
  let ascent := e.metrics.actualBoundingBoxAscent
  let descent := e.metrics.actualBoundingBoxDescent
  let visual := jadd ascent descent
  jmul (jdiv visual (some e.fontSize)) (some 1.1)

/-- `getElementLineHeight`.  The `currentStyle` argument is the result of
the `window.getComputedStyle(this.element)` call performed at call time
(line 70 of the source), which need not agree with the snapshot taken at
construction. -/
def getElementLineHeight (e : Engine) (currentStyle : StyleSnapshot) : Option ℚ :=
  match currentStyle.lineHeight with
  | none => estimateNormalLineHeight e
  | some px => jdiv (some px) (some e.fontSize)

/-- `getHeightForLines(lineCount = 1, lineHeight = this.getElementLineHeight())`.
An omitted (JS `undefined`) argument is `none` in the outer `Option`; the
defaults of the source are applied exactly as written, the `lineHeight`
default being evaluated only when that argument is omitted. -/
def getHeightForLines (e : Engine) (currentStyle : StyleSnapshot)
    (lineCount : Option ℚ) (lineHeight : Option ℚ) : Option ℚ :=
  let lc : ℚ := lineCount.getD 1
  let lh : Option ℚ :=
    match lineHeight with
    | some v => some v
    | none => getElementLineHeight e currentStyle
  jmul (jmul lh (some e.fontSize)) (some lc)

/-- `getMinHeightForLines(lineCount = 1)`. -/
def getMinHeightForLines (e : Engine) (currentStyle : StyleSnapshot)
    (lineCount : Option ℚ) : Option ℚ :=
  let lc : ℚ := lineCount.getD 1
  let minLH := getMinLineHeight e
  getHeightForLines e currentStyle (some lc) (some minLH)

/-- The object literal returned by `getMetrics`. -/
structure MetricsSnapshot where
  fontSize : ℚ
  ascent : Option ℚ
  descent : Option ℚ
  minLineHeight : ℚ
  currentLineHeight : Option ℚ
deriving DecidableEq

/-- `getMetrics`. -/
def getMetrics (e : Engine) (currentStyle : StyleSnapshot) : MetricsSnapshot :=
  { fontSize := e.fontSize
    ascent := e.metrics.actualBoundingBoxAscent
    descent := e.metrics.actualBoundingBoxDescent
    minLineHeight := getMinLineHeight e
    currentLineHeight := getElementLineHeight e currentStyle }

/-! Concrete instances used by witnesses and counterexamples. -/

/-- A demonstration engine: fontSize 48, measured ascent 40 and descent 8. -/
def eDemo : Engine :=
  { referenceText := "ÄyG|?"
    fontSize := 48
    fontFamily := "serif"
    fontWeight := "400"
    fontStyle := "normal"
    metrics :=
      { actualBoundingBoxAscent := some 40
        actualBoundingBoxDescent := some 8 } }

/-- An engine whose measurement primitive reported neither ascent nor
descent (the capability gap). -/
def eGap : Engine :=
  { referenceText := "ÄyG|?"
    fontSize := 48
    fontFamily := "serif"
    fontWeight := "400"
    fontStyle := "normal"
    metrics :=
      { actualBoundingBoxAscent := none
        actualBoundingBoxDescent := none } }

/-- A computed style with `line-height: normal` and fontSize 48. -/
def demoStyle : StyleSnapshot :=
  { fontSize := 48
    fontFamily := "serif"
    fontWeight := "400"
    fontStyle := "normal"
    lineHeight := none }

/-- A computed style whose line-height resolved to 57.6 px. -/
def declaredStyle : StyleSnapshot :=
  { fontSize := 48
    fontFamily := "serif"
    fontWeight := "400"
    fontStyle := "normal"
    lineHeight := some 57.6 }

/-- A computed style whose line-height resolved to 48 px. -/
def styleA : StyleSnapshot :=
  { fontSize := 48
    fontFamily := "serif"
    fontWeight := "400"
    fontStyle := "normal"
    lineHeight := some 48 }

/-- The style of the same element after a later line-height change to 96 px. -/
def styleB : StyleSnapshot :=
  { fontSize := 48
    fontFamily := "serif"
    fontWeight := "400"
    fontStyle := "normal"
    lineHeight := some 96 }

/-- Same line-height declaration as `styleA` but a different font family,
as after a font-family-only style change. -/
def styleA2 : StyleSnapshot :=
  { fontSize := 48
    fontFamily := "monospace"
    fontWeight := "700"
    fontStyle := "italic"
    lineHeight := some 48 }

/-- Helper evaluation shared by witnesses: on the demonstration engine with
`line-height: normal`, the estimated element line-height is exactly 1.1. -/
theorem eDemo_elementLineHeight :
    getElementLineHeight eDemo demoStyle = some 1.1 := by
  simp only [getElementLineHeight, estimateNormalLineHeight, demoStyle, eDemo,
    jadd, jdiv, jmul]
  norm_num

/-- C1: when both ascent and descent are present in the measured extent,
`getMinLineHeight()` returns exactly `(ascent + descent) / fontSize`. -/
theorem getMinLineHeight_formula (e : Engine) (a d : ℚ)
    (ha : e.metrics.actualBoundingBoxAscent = some a)
    (hd : e.metrics.actualBoundingBoxDescent = some d) :
    getMinLineHeight e = (a + d) / e.fontSize := by
  unfold getMinLineHeight getMinLineHeightW
  rw [ha, hd]

theorem getMinLineHeight_formula_witness :
    getMinLineHeight eDemo = (40 + 8) / 48 :=
  getMinLineHeight_formula eDemo 40 8 rfl rfl

/-- C2: when ascent or descent is absent, `getMinLineHeight()` returns
exactly 1 and a warning is emitted; the function returns normally (the
embedding is a total function with no error case on this path). -/
theorem getMinLineHeight_gap (e : Engine)
    (h : e.metrics.actualBoundingBoxAscent = none ∨
         e.metrics.actualBoundingBoxDescent = none) :
    (getMinLineHeightW e).1 = 1 ∧ (getMinLineHeightW e).2 ≠ [] := by
  unfold getMinLineHeightW
  rcases h with h | h <;>
    rcases hA : e.metrics.actualBoundingBoxAscent with _ | a <;>
    rcases hD : e.metrics.actualBoundingBoxDescent with _ | d <;>
    simp_all

theorem getMinLineHeight_gap_witness :
    (getMinLineHeightW eGap).1 = 1 ∧ (getMinLineHeightW eGap).2 ≠ [] :=
  getMinLineHeight_gap eGap (Or.inl rfl)

/-- C3: when the computed line-height is `"normal"` and both ascent and
descent are present, `getElementLineHeight()` returns
`(ascent + descent) / fontSize * 1.1` (fontSize nonzero, as it is a
positive real in the data model). -/
theorem getElementLineHeight_normal (e : Engine) (s : StyleSnapshot) (a d : ℚ)
    (hs : s.lineHeight = none)
    (ha : e.metrics.actualBoundingBoxAscent = some a)
    (hd : e.metrics.actualBoundingBoxDescent = some d)
    (hfs : e.fontSize ≠ 0) :
    getElementLineHeight e s = some ((a + d) / e.fontSize * 1.1) := by
  unfold getElementLineHeight estimateNormalLineHeight
  rw [hs, ha, hd]
  simp [jadd, jdiv, jmul, hfs]

/-- With fontSize 48, ascent 40, descent 8 the C3 value is exactly 1.1. -/
theorem getElementLineHeight_normal_witness :
    getElementLineHeight eDemo demoStyle = some ((40 + 8) / 48 * 1.1) ∧
    ((40 : ℚ) + 8) / 48 * 1.1 = 1.1 :=
  ⟨getElementLineHeight_normal eDemo demoStyle 40 8 rfl rfl rfl
     (by norm_num [eDemo]),
   by norm_num⟩

/-- C4: when the computed line-height is a concrete pixel value,
`getElementLineHeight()` returns that value divided by the fontSize
captured at construction. -/
theorem getElementLineHeight_declared (e : Engine) (s : StyleSnapshot) (px : ℚ)
    (hs : s.lineHeight = some px) (hfs : e.fontSize ≠ 0) :
    getElementLineHeight e s = some (px / e.fontSize) := by
  unfold getElementLineHeight
  rw [hs]
  simp [jdiv, hfs]

/-- With line-height 57.6 px and fontSize 48 the C4 value is exactly 1.2. -/
theorem getElementLineHeight_declared_witness :
    getElementLineHeight eDemo declaredStyle = some (57.6 / 48) ∧
    (57.6 : ℚ) / 48 = 1.2 :=
  ⟨getElementLineHeight_declared eDemo declaredStyle 57.6 rfl
     (by norm_num [eDemo]),
   by norm_num⟩

/-- C5: for every lineCount (zero and negative included, with a normal
return) and provided relative lineHeight,
`getHeightForLines(lineCount, lh) = lh * fontSize * lineCount`; doubling
the line count doubles the result; and an omitted lineHeight defaults to
the value of `getElementLineHeight()`. -/
theorem getHeightForLines_formula (e : Engine) (s : StyleSnapshot) (lc lh : ℚ) :
    getHeightForLines e s (some lc) (some lh) = some (lh * e.fontSize * lc) ∧
    (∀ n : ℕ, 0 < n →
      getHeightForLines e s (some ((2 * n : ℕ) : ℚ)) (some lh) =
        Option.map (fun x => 2 * x)
          (getHeightForLines e s (some ((n : ℕ) : ℚ)) (some lh))) ∧
    (∀ v : ℚ, getElementLineHeight e s = some v →
      getHeightForLines e s (some lc) none = some (v * e.fontSize * lc)) := by
  refine ⟨rfl, fun n _ => ?_, fun v hv => ?_⟩
  · unfold getHeightForLines
    simp only [Option.getD_some, jmul, Option.map_some']
    push_cast
    ring_nf
  · unfold getHeightForLines
    rw [hv]
    simp [jmul]

theorem getHeightForLines_formula_witness :
    getHeightForLines eDemo demoStyle (some 3) (some (3 / 2)) =
      some (3 / 2 * 48 * 3) ∧
    getHeightForLines eDemo demoStyle (some ((2 * 2 : ℕ) : ℚ)) (some (3 / 2)) =
      Option.map (fun x => 2 * x)
        (getHeightForLines eDemo demoStyle (some ((2 : ℕ) : ℚ)) (some (3 / 2))) ∧
    getHeightForLines eDemo demoStyle (some 3) none = some (1.1 * 48 * 3) := by
  have h := getHeightForLines_formula eDemo demoStyle 3 (3 / 2)
  exact ⟨h.1, h.2.1 2 (by decide), h.2.2 1.1 eDemo_elementLineHeight⟩

/-- C6: when the computed line-height is `"normal"` and ascent or descent
is absent, `getElementLineHeight()` yields the propagated undefined/NaN
result (`none` in the embedding), not a numeric fallback such as 1.0. -/
theorem getElementLineHeight_gap_nan (e : Engine) (s : StyleSnapshot)
    (hs : s.lineHeight = none)
    (h : e.metrics.actualBoundingBoxAscent = none ∨
         e.metrics.actualBoundingBoxDescent = none) :
    getElementLineHeight e s = none := by
  unfold getElementLineHeight estimateNormalLineHeight
  rw [hs]
  rcases h with h | h <;>
    rcases hA : e.metrics.actualBoundingBoxAscent with _ | a <;>
    rcases hD : e.metrics.actualBoundingBoxDescent with _ | d <;>
    simp_all [jadd, jdiv, jmul]

theorem getElementLineHeight_gap_nan_witness :
    getElementLineHeight eGap demoStyle = none :=
  getElementLineHeight_gap_nan eGap demoStyle rfl (Or.inl rfl)

/-- C7 counterexample: `getElementLineHeight` re-invokes
`window.getComputedStyle(this.element)` at call time (source line 70), so
on the same engine instance two calls made before and after the element's
computed line-height changes from 48 px to 96 px return different values
(1 and 2): the instance does observe the style change, refuting the claim
that the results are equal. -/
theorem getElementLineHeight_style_change :
    ¬ getElementLineHeight eDemo styleA = getElementLineHeight eDemo styleB := by
  simp [getElementLineHeight, jdiv, eDemo, styleA, styleB]
  norm_num

/-- C7 amended: every accessor is a pure function of the state captured at
construction plus the line-height field of the computed style current at
the call; in particular `getMinLineHeight` and the fontSize/ascent/descent/
minLineHeight fields of `getMetrics` are independent of the current style,
and two calls whose current computed line-height agrees (even if other
style fields changed) return equal results — but a line-height change
between calls is observed. -/
theorem accessors_pure (e : Engine) (s1 s2 : StyleSnapshot)
    (h : s1.lineHeight = s2.lineHeight) (lc lh : Option ℚ) :
    getElementLineHeight e s1 = getElementLineHeight e s2 ∧
    getMetrics e s1 = getMetrics e s2 ∧
    getHeightForLines e s1 lc lh = getHeightForLines e s2 lc lh ∧
    getMinHeightForLines e s1 lc = getMinHeightForLines e s2 lc ∧
    (getMetrics e s1).minLineHeight = getMinLineHeight e ∧
    (getMetrics e s1).fontSize = e.fontSize ∧
    (getMetrics e s1).ascent = e.metrics.actualBoundingBoxAscent ∧
    (getMetrics e s1).descent = e.metrics.actualBoundingBoxDescent := by
  have hel : getElementLineHeight e s1 = getElementLineHeight e s2 := by
    unfold getElementLineHeight
    rw [h]
  refine ⟨hel, ?_, ?_, ?_, rfl, rfl, rfl, rfl⟩
  · unfold getMetrics
    rw [hel]
  · unfold getHeightForLines
    rw [hel]
  · unfold getMinHeightForLines getHeightForLines
    rw [hel]

theorem accessors_pure_witness :
    getElementLineHeight eDemo styleA = getElementLineHeight eDemo styleA2 ∧
    getMetrics eDemo styleA = getMetrics eDemo styleA2 ∧
    getHeightForLines eDemo styleA (some 2) none =
      getHeightForLines eDemo styleA2 (some 2) none ∧
    getMinHeightForLines eDemo styleA (some 2) =
      getMinHeightForLines eDemo styleA2 (some 2) ∧
    (getMetrics eDemo styleA).minLineHeight = getMinLineHeight eDemo ∧
    (getMetrics eDemo styleA).fontSize = eDemo.fontSize ∧
    (getMetrics eDemo styleA).ascent = eDemo.metrics.actualBoundingBoxAscent ∧
    (getMetrics eDemo styleA).descent = eDemo.metrics.actualBoundingBoxDescent :=
  accessors_pure eDemo styleA styleA2 rfl (some 2) none

/-- C8: `getMetrics()` agrees field-by-field with the accessors evaluated
against the same call-time computed style, and the ascent/descent fields
are the raw measured values, absent sentinel included. -/
theorem getMetrics_consistent (e : Engine) (s : StyleSnapshot) :
    (getMetrics e s).minLineHeight = getMinLineHeight e ∧
    (getMetrics e s).currentLineHeight = getElementLineHeight e s ∧
    (getMetrics e s).ascent = e.metrics.actualBoundingBoxAscent ∧
    (getMetrics e s).descent = e.metrics.actualBoundingBoxDescent ∧
    (getMetrics e s).fontSize = e.fontSize :=
  ⟨rfl, rfl, rfl, rfl, rfl⟩

/-- C9: constructing with no target fails with the invalid-target error,
the result is never a usable instance, and it does not depend on the
measurement primitive (the primitive is not consulted on this path). -/
theorem construct_no_element (referenceText : String)
    (measure1 measure2 : String → String → GlyphExtent) :
    construct none referenceText measure1 =
      Except.error "TextMetricsHelper: no element provided." ∧
    (construct none referenceText measure1).isOk = false ∧
    construct none referenceText measure1 =
      construct none referenceText measure2 :=
  ⟨rfl, rfl, rfl⟩

/-- C10: an omitted lineCount defaults to 1 in both height accessors:
`getHeightForLines()` with all arguments omitted returns
`getElementLineHeight() * fontSize` and `getMinHeightForLines()` with its
argument omitted returns `getMinLineHeight() * fontSize`; neither fails. -/
theorem height_lineCount_default (e : Engine) (s : StyleSnapshot) (v : ℚ)
    (hv : getElementLineHeight e s = some v) :
    getHeightForLines e s none none = some (v * e.fontSize) ∧
    getMinHeightForLines e s none = some (getMinLineHeight e * e.fontSize) := by
  constructor
  · unfold getHeightForLines
    rw [hv]
    simp [jmul]
  · unfold getMinHeightForLines getHeightForLines
    simp [jmul]

theorem height_lineCount_default_witness :
    getHeightForLines eDemo demoStyle none none = some (1.1 * eDemo.fontSize) ∧
    getMinHeightForLines eDemo demoStyle none =
      some (getMinLineHeight eDemo * eDemo.fontSize) := by
  exact height_lineCount_default eDemo demoStyle 1.1 eDemo_elementLineHeight

end TextMetricsHelper
